import Mathlib

/-!
Shallow embedding of the 9487ticket interactive-experience core
(src/types.ts and the single React component in src/unnamed/part_000).

The component is a single-threaded React function component; all state
lives in useState hooks and all timing in setTimeout/setInterval.  We
embed the state as explicit records and each handler as a pure state
transformer.  Timer callbacks are embedded as separate transformers; a
scheduled timeout is recorded in the state (the source never cancels
the timeouts modelled here, so pending entries are only removed by
firing them).
-/

namespace TicketApp

/--
The step labels used by the program.  `src/types.ts` declares the enum
`AppStep` with members HOME, START, NAME, CAROUSEL, CARD_BACK, LIGHT_1,
LIGHT_2, LIGHT_3, END (no LIGHT_4), while the component in
src/unnamed/part_000 also reads and assigns `AppStep.LIGHT_4`.  This
inductive is the union of both label sets so that the runtime behaviour
of the component can be modelled; the two distinct member lists are
recorded separately below as string lists for the enum-membership claim.
-/
inductive Step where
  | HOME
  | START
  | NAME
  | CAROUSEL
  | CARD_BACK
  | LIGHT_1
  | LIGHT_2
  | LIGHT_3
  | LIGHT_4
  | END
  deriving DecidableEq, Repr

/-- The members of the enum `AppStep` exactly as declared in
src/types.ts lines 1-11 (member name = member value there). -/
def appStepDeclaredMembers : List String :=
  ["HOME", "START", "NAME", "CAROUSEL", "CARD_BACK",
   "LIGHT_1", "LIGHT_2", "LIGHT_3", "END"]

/-- Every step value the component ever assigns (or initialises) in
src/unnamed/part_000: HOME (initial useState), START (home click),
NAME (start click), CAROUSEL (name fade timeout), LIGHT_1 (all-solved
timeout), LIGHT_2 and LIGHT_3 and END (light auto-advance timeouts),
LIGHT_4 (submitFinalAnswer success). -/
def assignedStepValues : List String :=
  ["HOME", "START", "NAME", "CAROUSEL",
   "LIGHT_1", "LIGHT_2", "LIGHT_3", "LIGHT_4", "END"]

/-- The member list the specification claims for the Step enum. -/
def claimedStepMembers : List String :=
  ["HOME", "START", "NAME", "CAROUSEL",
   "LIGHT_1", "LIGHT_2", "LIGHT_3", "LIGHT_4", "END"]

/-!
## Card interaction state (openCard / closeCard, part_000 lines 103-263)
-/

/-- The slice of component state touched by the card interaction
handlers.  `lightScheduled` records whether the 800 ms
`setTimeout(() => setStep(AppStep.LIGHT_1), 800)` has been scheduled by
a close-commit. -/
structure CardSt where
  activeCardId : Option Int
  isExpanded : Bool
  isFlipped : Bool
  isAnimating : Bool
  solvedCards : List Int
  inputCardAnswer : List Char
  lightScheduled : Bool
  deriving DecidableEq, Repr

/-- JavaScript truthiness of the `activeCardId` value (`null` and `0`
are falsy, every other number truthy), as used by the guard
`if (solved && activeCardId)` in closeCard. -/
def truthyId : Option Int → Bool
  | none => false
  | some i => i != 0

/-- `openCard` (part_000 lines 214-233), synchronous part: drops the
call while `isAnimating`, otherwise locks, sets the active card and
clears the answer input.  The requestAnimationFrame callback then sets
`isExpanded`, a 600 ms timeout sets `isFlipped`, and a further 600 ms
timeout clears `isAnimating`; none of that changes `activeCardId`, so
the synchronous part is what the re-entrancy claims are about. -/
def openCard (id : Int) (s : CardSt) : CardSt :=
  if s.isAnimating then s
  else { s with
          isAnimating := true
          activeCardId := some id
          inputCardAnswer := [] }

/-- The card thumbnail click handler (part_000 line 450):
`isGameLayerInteractive && !isActive && !isSolved && openCard(card.id)`
where `isActive` is `activeCardId === card.id` and `isSolved` is
`user.solvedCards.includes(card.id)`. -/
def cardClick (interactive : Bool) (id : Int) (s : CardSt) : CardSt :=
  if interactive && !(s.activeCardId == some id) && !(s.solvedCards.contains id)
  then openCard id s
  else s

/-- `closeCard` (part_000 lines 236-263), end state after its two
600 ms timeouts have resolved: drops the call while `isAnimating`,
otherwise flips back, collapses, clears the active card and the lock,
and then - guarded by `if (solved && activeCardId)` on the values
captured at call time - appends the active card id to `solvedCards`
(unconditionally, no duplicate check) and, when the new length equals
the total card count, schedules the 800 ms transition to LIGHT_1. -/
def closeCard (totalCards : Nat) (solved : Bool) (s : CardSt) : CardSt :=
  if s.isAnimating then s
  else
    let commit := solved && truthyId s.activeCardId
    let newSolved :=
      if commit then s.solvedCards ++ [s.activeCardId.getD 0] else s.solvedCards
    { s with
       isFlipped := false
       isExpanded := false
       activeCardId := none
       isAnimating := false
       solvedCards := newSolved
       lightScheduled :=
         s.lightScheduled || (commit && (newSolved.length == totalCards)) }

/-!
## Carousel navigation (part_000 lines 201-211)
-/

/-- `CAROUSEL_LAYOUT.visibleCount` (part_000 line 16). -/
def visibleCount : Int := 4

/-- `handlePrev` (part_000 lines 201-205). -/
def handlePrev (idx : Int) : Int :=
  if idx > 0 then idx - 3 else idx

/-- `handleNext` (part_000 lines 207-211); `total` is
`CARDS_CONFIG.length` (the card list lives in the absent constants.ts,
so the total is a parameter). -/
def handleNext (total idx : Int) : Int :=
  if idx + visibleCount < total then idx + 3 else idx

inductive CarouselOp where
  | prevOp
  | nextOp
  deriving DecidableEq, Repr

/-- One prev/next button press applied to the carousel index. -/
def carouselStep (total : Int) (idx : Int) : CarouselOp → Int
  | CarouselOp.prevOp => handlePrev idx
  | CarouselOp.nextOp => handleNext total idx

/-- The carousel index reached from a start index by a sequence of
prev/next presses. -/
def carouselRunFrom (total : Int) (idx : Int) (ops : List CarouselOp) : Int :=
  ops.foldl (carouselStep total) idx

/-- The carousel index reached from the initial `useState(0)` by a
sequence of prev/next presses. -/
def carouselRun (total : Int) (ops : List CarouselOp) : Int :=
  carouselRunFrom total 0 ops

/-!
## Light auto-advance effect (part_000 lines 295-306)

The `useEffect` keyed on `step` arms a `setTimeout(setStep ..., delay)`
for LIGHT_1, LIGHT_2 and LIGHT_4 and returns no cleanup function, so an
armed timeout is never cancelled when the step changes: firing it calls
`setStep(target)` with a plain value, overwriting whatever step is
current, after which the effect runs again for the new step.
-/

/-- Step-machine state: the current step plus the armed, uncancelled
light timeouts (delay in ms, target step). -/
structure StepSt where
  step : Step
  timers : List (Nat × Step)
  deriving DecidableEq, Repr

/-- The timeouts the light auto-advance effect arms on entering a step
(part_000 lines 295-306). -/
def lightAutoAdvance : Step → List (Nat × Step)
  | Step.LIGHT_1 => [(2500, Step.LIGHT_2)]
  | Step.LIGHT_2 => [(1200, Step.LIGHT_3)]
  | Step.LIGHT_4 => [(1200, Step.END)]
  | _ => []

/-- `setStep t` followed by the re-run of the light effect: the new
timeouts are armed and - because the effect returns no cleanup - the
previously armed ones are kept. -/
def setStepAndEffect (t : Step) (s : StepSt) : StepSt :=
  { step := t, timers := s.timers ++ lightAutoAdvance t }

/-- Firing the earliest armed timeout: its callback `setStep target`
runs (unconditionally overwriting the current step), then the effect
re-runs for the target step. -/
def fireFirstTimer (s : StepSt) : StepSt :=
  match s.timers with
  | [] => s
  | (_, tgt) :: rest => setStepAndEffect tgt { s with timers := rest }

/-!
## Error pulse (handleError, part_000 lines 180-183)
-/

/-- The shake-error slice of state: the flag plus the fire times of the
scheduled `setShakeError(false)` timeouts (the source keeps no handle
and never cancels them). -/
structure PulseSt where
  shake : Bool
  clears : List Nat
  deriving DecidableEq, Repr

/-- `handleError` called at time `now`: sets the flag and schedules a
clear at `now + 500` (the 0.5 s shake), without cancelling any clear
already pending. -/
def handleError (now : Nat) (s : PulseSt) : PulseSt :=
  { shake := true, clears := s.clears ++ [now + 500] }

/-- Advancing the clock to time `now`: every pending clear timeout due
by `now` fires, each one running `setShakeError(false)`. -/
def firePulseClears (now : Nat) (s : PulseSt) : PulseSt :=
  if s.clears.any (fun t => t ≤ now)
  then { shake := false, clears := s.clears.filter (fun t => now < t) }
  else s

/-!
## Countdown gate (part_000 lines 123-161)
-/

/-- The countdown slice of state. -/
structure CountdownSt where
  isGameLive : Bool
  timeLeft : String
  deriving DecidableEq, Repr

/-- The `useState` initialiser of `isGameLive` (part_000 lines
123-126): `TEST_MODE` forces true, otherwise the target time is
compared with the current time already at first render.  Times are in
epoch milliseconds. -/
def isGameLiveInit (testMode : Bool) (target now : Int) : Bool :=
  testMode || decide (target ≤ now)

/-- The countdown display string built in the interval callback
(part_000 lines 153-157), for a non-negative remaining time in ms. -/
def formatTimeLeft (diff : Nat) : String :=
  let d := diff / (1000 * 60 * 60 * 24)
  let h := (diff / (1000 * 60 * 60)) % 24
  let m := (diff / 1000 / 60) % 60
  let s := (diff / 1000) % 60
  toString d ++ "天 " ++ toString h ++ "時 " ++ toString m ++ "分 " ++ toString s ++ "秒"

/-- One firing of the countdown interval (part_000 lines 146-159) at
time `now`.  When `isGameLive` is already true the interval is not even
installed (the effect returns early), so the state is unchanged; the
unlock branch is taken only when `diff < 0` strictly. -/
def countdownTick (target now : Int) (s : CountdownSt) : CountdownSt :=
  if s.isGameLive then s
  else
    let diff := target - now
    if diff < 0 then { isGameLive := true, timeLeft := "00:00:00" }
    else { s with timeLeft := formatTimeLeft diff.toNat }

/-- A sequence of interval firings at the given clock readings. -/
def countdownRun (target : Int) (nows : List Int) (s : CountdownSt) : CountdownSt :=
  nows.foldl (fun st n => countdownTick target n st) s

/-!
## String normalization and answer hashing
(hashString lines 29-37, submitCardAnswer lines 266-279,
submitFinalAnswer lines 282-292)

JavaScript strings are modelled as `List Char`.  `String.prototype.trim`
strips the JS whitespace characters from both ends;
`String.prototype.toLowerCase` is modelled character-wise by
`Char.toLower` (the answers in this app are ASCII digits/letters).
`crypto.subtle.digest("SHA-256", ...)` is a platform primitive outside
the repository, so the digest function over the UTF-8 bytes is a
parameter `sha256`; the surrounding encode / hex-format / compare logic
is embedded from the source.
-/

/-- The whitespace characters stripped by `String.prototype.trim`:
tab, LF, VT, FF, CR, space, NBSP, BOM (the code points that occur in
practice). -/
def isJsWs (c : Char) : Bool :=
  c == Char.ofNat 9 || c == Char.ofNat 10 || c == Char.ofNat 11 ||
  c == Char.ofNat 12 || c == Char.ofNat 13 || c == ' ' ||
  c == Char.ofNat 160 || c == Char.ofNat 0xFEFF

/-- `s.trim()`: drop JS whitespace from the front, then from the back. -/
def jsTrim (s : List Char) : List Char :=
  (((s.dropWhile isJsWs).reverse).dropWhile isJsWs).reverse

/-- Character-wise model of `String.prototype.toLowerCase`. -/
def jsToLower (c : Char) : Char :=
  c.toLower

/-- UTF-8 encoding of one code point, as produced by `TextEncoder`. -/
def utf8EncodeChar (c : Char) : List Nat :=
  let n := c.toNat
  if n < 0x80 then [n]
  else if n < 0x800 then
    [0xC0 + n / 0x40, 0x80 + n % 0x40]
  else if n < 0x10000 then
    [0xE0 + n / 0x1000, 0x80 + (n / 0x40) % 0x40, 0x80 + n % 0x40]
  else
    [0xF0 + n / 0x40000, 0x80 + (n / 0x1000) % 0x40,
     0x80 + (n / 0x40) % 0x40, 0x80 + n % 0x40]

/-- `new TextEncoder().encode(text)` (part_000 line 31). -/
def utf8Encode (s : List Char) : List Nat :=
  s.flatMap utf8EncodeChar

/-- Lowercase hexadecimal digit for a value below 16, as produced by
`Number.prototype.toString(16)`. -/
def hexDigitChar (n : Nat) : Char :=
  if n < 10 then Char.ofNat (48 + n) else Char.ofNat (87 + n)

/-- `b.toString(16).padStart(2, "0")` for a byte (part_000 line 36). -/
def byteToHexLower (b : Nat) : List Char :=
  [hexDigitChar (b / 16), hexDigitChar (b % 16)]

/-- `hashArray.map(b => ...).join("")` (part_000 line 36). -/
def toHexLower (bytes : List Nat) : List Char :=
  bytes.flatMap byteToHexLower

/-- `hashString` (part_000 lines 29-37): UTF-8 encode the text, digest
it with SHA-256 (the parameter `sha256`, a byte-list transformer), and
render the digest bytes as a lowercase hex string. -/
def hashString (sha256 : List Nat → List Nat) (text : List Char) : List Char :=
  toHexLower (sha256 (utf8Encode text))

/-- The normalization applied before hashing in `submitCardAnswer` and
`submitFinalAnswer`: `input.trim().toLowerCase()` (part_000 lines 271
and 283). -/
def cleanInput (input : List Char) : List Char :=
  (jsTrim input).map jsToLower

/-- The answer check of `submitCardAnswer` / `submitFinalAnswer`
(part_000 lines 266-292): hash the cleaned input and compare the hex
string for exact equality with the stored digest. -/
def answerMatches (sha256 : List Nat → List Nat)
    (input : List Char) (digest : List Char) : Bool :=
  hashString sha256 (cleanInput input) == digest

/-- A lowercase hexadecimal digit (0-9 or a-f). -/
def isLowerHexDigit (c : Char) : Bool :=
  (Char.ofNat 48 ≤ c && c ≤ Char.ofNat 57) ||
  (Char.ofNat 97 ≤ c && c ≤ Char.ofNat 102)

/-!
## Name submission (handleNameSubmit, part_000 lines 185-198)
-/

/-- The slice of state touched by `handleNameSubmit`: the committed
profile name, the current step, the fade flag, and whether the 1000 ms
`setTimeout` to CAROUSEL is pending. -/
structure NameSt where
  name : List Char
  step : Step
  isTransitioning : Bool
  fadePending : Bool
  deriving DecidableEq, Repr

/-- `handleNameSubmit` (part_000 lines 185-198): returns unchanged when
the trimmed input is empty (`if (!inputName.trim()) return`), otherwise
commits the trimmed name, starts the fade, and schedules the 1000 ms
switch to CAROUSEL. -/
def handleNameSubmit (inputName : List Char) (s : NameSt) : NameSt :=
  if jsTrim inputName == [] then s
  else { s with
          name := jsTrim inputName
          isTransitioning := true
          fadePending := true }

/-- The 1000 ms timeout callback of `handleNameSubmit`:
`setStep(AppStep.CAROUSEL); setIsTransitioning(false)`. -/
def fireNameFade (s : NameSt) : NameSt :=
  if s.fadePending
  then { s with step := Step.CAROUSEL, isTransitioning := false, fadePending := false }
  else s

/-!
## Concrete states used by the claim theorems and witnesses
-/

/-- State used by the C2 counterexample: card 1 is open (flipped, lock
clear) and is already recorded as solved; there are 2 cards in total. -/
def c2DupState : CardSt :=
  { activeCardId := some 1
    isExpanded := true
    isFlipped := true
    isAnimating := false
    solvedCards := [1]
    inputCardAnswer := []
    lightScheduled := false }

/-- State used by the C2 witness. -/
def c2WitnessState : CardSt :=
  { activeCardId := some 7
    isExpanded := true
    isFlipped := true
    isAnimating := false
    solvedCards := [5]
    inputCardAnswer := []
    lightScheduled := false }

/-- State used by the C5 counterexample: card 1 is fully open (the
animation lock has cleared), no card is solved. -/
def c5ActiveState : CardSt :=
  { activeCardId := some 1
    isExpanded := true
    isFlipped := true
    isAnimating := false
    solvedCards := []
    inputCardAnswer := []
    lightScheduled := false }

/-- Fresh state used by the C5 witness: nothing open, nothing solved. -/
def c5FreshState : CardSt :=
  { activeCardId := none
    isExpanded := false
    isFlipped := false
    isAnimating := false
    solvedCards := []
    inputCardAnswer := []
    lightScheduled := false }

/-- Locked state used by the C5 witness. -/
def c5LockedState : CardSt :=
  { activeCardId := some 3
    isExpanded := true
    isFlipped := false
    isAnimating := true
    solvedCards := []
    inputCardAnswer := []
    lightScheduled := false }

/-- Concrete inputs used by the C7 witness. -/
def c7Digest : List Char := ['a', 'b']

/-- State used by the C9 witness: on the NAME step with an empty
profile. -/
def c9State : NameSt :=
  { name := []
    step := Step.NAME
    isTransitioning := false
    fadePending := false }

/-- State used by the C10 witness with the zero card id active. -/
def c10ZeroState : CardSt :=
  { activeCardId := some 0
    isExpanded := true
    isFlipped := true
    isAnimating := false
    solvedCards := [3]
    inputCardAnswer := []
    lightScheduled := false }

/-- State used by the C10 witness with a nonzero card id active. -/
def c10NonzeroState : CardSt :=
  { activeCardId := some 4
    isExpanded := true
    isFlipped := true
    isAnimating := false
    solvedCards := [3]
    inputCardAnswer := []
    lightScheduled := false }

/-!
## Helper lemmas about trimming
-/

lemma dropWhile_append_of_all (p : Char → Bool) (l1 l2 : List Char)
    (h : l1.all p = true) : (l1 ++ l2).dropWhile p = l2.dropWhile p := by
  induction l1 with
  | nil => rfl
  | cons a t ih =>
    simp only [List.all_cons, Bool.and_eq_true] at h
    simp [List.dropWhile_cons, h.1, ih h.2]

lemma dropWhile_eq_nil_of_all (p : Char → Bool) (l : List Char)
    (h : l.all p = true) : l.dropWhile p = [] := by
  apply List.dropWhile_eq_nil_iff.mpr
  intro x hx
  exact (List.all_eq_true.mp h) x hx

lemma dropWhile_eq_self_of_length (p : Char → Bool) (l : List Char)
    (h : (l.dropWhile p).length = l.length) : l.dropWhile p = l :=
  (List.dropWhile_suffix p).eq_of_length h

/-- A fixpoint of `jsTrim` is a fixpoint of each of its two dropWhile
passes. -/
lemma jsTrim_fix_parts (c : List Char) (h : jsTrim c = c) :
    c.dropWhile isJsWs = c ∧ c.reverse.dropWhile isJsWs = c.reverse := by
  have hlen1 : (c.dropWhile isJsWs).length ≤ c.length :=
    (List.dropWhile_suffix isJsWs).length_le
  have hlen2 : (((c.dropWhile isJsWs).reverse).dropWhile isJsWs).length
      ≤ (c.dropWhile isJsWs).length := by
    simpa using (List.dropWhile_suffix (l := (c.dropWhile isJsWs).reverse) isJsWs).length_le
  have hlen3 : (jsTrim c).length = c.length := by rw [h]
  unfold jsTrim at hlen3
  simp only [List.length_reverse] at hlen3
  have hfront : c.dropWhile isJsWs = c :=
    dropWhile_eq_self_of_length isJsWs c (by omega)
  refine ⟨hfront, ?_⟩
  have h2 : ((c.reverse.dropWhile isJsWs).reverse) = c := by
    unfold jsTrim at h
    rwa [hfront] at h
  have h3 := congrArg List.reverse h2
  simpa using h3

/-- Trimming strips whitespace-only prefixes and suffixes down to the
trimmed core. -/
lemma jsTrim_sandwich (p c q : List Char)
    (hp : p.all isJsWs = true) (hq : q.all isJsWs = true) (hc : jsTrim c = c) :
    jsTrim (p ++ c ++ q) = c := by
  obtain ⟨dc, drc⟩ := jsTrim_fix_parts c hc
  unfold jsTrim
  rw [List.append_assoc, dropWhile_append_of_all _ _ _ hp, List.dropWhile_append, dc]
  cases c with
  | nil =>
    simp [dropWhile_eq_nil_of_all _ _ hq]
  | cons a t =>
    simp only [List.isEmpty_cons, Bool.false_eq_true, if_false]
    rw [List.reverse_append, dropWhile_append_of_all _ _ _ (by simpa using hq)]
    rw [drc, List.reverse_reverse]

/-- A whitespace-only string trims to the empty string. -/
lemma jsTrim_eq_nil_of_all (l : List Char) (h : l.all isJsWs = true) :
    jsTrim l = [] := by
  unfold jsTrim
  rw [dropWhile_eq_nil_of_all _ _ h]
  rfl

/-- The normalization of `submitCardAnswer` maps a whitespace-padded,
case-varied string to the lowercase of its trimmed core. -/
lemma cleanInput_sandwich (p c q : List Char)
    (hp : p.all isJsWs = true) (hq : q.all isJsWs = true) (hc : jsTrim c = c) :
    cleanInput (p ++ c ++ q) = c.map jsToLower := by
  unfold cleanInput
  rw [jsTrim_sandwich p c q hp hq hc]

/-- Every hex digit emitted for a value below 16 is lowercase hex. -/
lemma hexDigitChar_isLowerHex : ∀ n : Nat, n < 16 → isLowerHexDigit (hexDigitChar n) = true := by
  decide

/-!
## Helper lemmas about the carousel
-/

/-- Invariant of the carousel index under any sequence of prev/next
presses: non-negative, a multiple of 3, and at most `total - 2` once
positive. -/
lemma carousel_inv (total : Int) (ops : List CarouselOp) (idx : Int)
    (h0 : 0 ≤ idx) (h3 : idx % 3 = 0) (hub : idx ≤ 0 ∨ idx ≤ total - 2) :
    0 ≤ carouselRunFrom total idx ops
    ∧ carouselRunFrom total idx ops % 3 = 0
    ∧ (carouselRunFrom total idx ops ≤ 0 ∨ carouselRunFrom total idx ops ≤ total - 2) := by
  induction ops generalizing idx with
  | nil => exact ⟨h0, h3, hub⟩
  | cons op rest ih =>
    cases op with
    | prevOp =>
      simp only [carouselRunFrom, List.foldl_cons, carouselStep, handlePrev]
      by_cases hgt : idx > 0
      · simp only [if_pos hgt]
        exact ih (idx - 3) (by omega) (by omega) (by omega)
      · simp only [if_neg hgt]
        exact ih idx h0 h3 hub
    | nextOp =>
      simp only [carouselRunFrom, List.foldl_cons, carouselStep, handleNext, visibleCount]
      by_cases hlt : idx + 4 < total
      · simp only [if_pos hlt]
        exact ih (idx + 3) (by omega) (by omega) (by omega)
      · simp only [if_neg hlt]
        exact ih idx h0 h3 hub

/-- `handleNext` leaves the index unchanged exactly when the window
already reaches the end of the card list. -/
lemma handleNext_fixed_iff (total idx : Int) :
    handleNext total idx = idx ↔ total ≤ idx + visibleCount := by
  unfold handleNext
  by_cases h : idx + visibleCount < total
  · simp only [if_pos h]
    constructor
    · intro he; omega
    · intro he; omega
  · simp only [if_neg h]
    constructor
    · intro _; omega
    · intro _; trivial

/-- For a non-negative index, `handlePrev` leaves it unchanged exactly
when it is 0. -/
lemma handlePrev_fixed_iff (idx : Int) (h0 : 0 ≤ idx) :
    handlePrev idx = idx ↔ idx = 0 := by
  unfold handlePrev
  by_cases h : idx > 0
  · simp only [if_pos h]
    constructor
    · intro he; omega
    · intro he; omega
  · simp only [if_neg h]
    constructor
    · intro _; omega
    · intro _; trivial

/-- While the animation lock is held, `openCard` drops the call. -/
lemma openCard_locked (id : Int) (s : CardSt) (h : s.isAnimating = true) :
    openCard id s = s := by
  unfold openCard
  rw [if_pos h]

/-- While the animation lock is held, a thumbnail click changes
nothing, whether or not the click guard lets it through. -/
lemma cardClick_noop_locked (b : Bool) (id : Int) (s : CardSt)
    (h : s.isAnimating = true) : cardClick b id s = s := by
  unfold cardClick
  by_cases hg : (b && !(s.activeCardId == some id) && !(s.solvedCards.contains id)) = true
  · rw [if_pos hg]
    exact openCard_locked id s h
  · rw [if_neg hg]

/-- One interval firing sets the unlocked flag exactly when it was
already set or the remaining time is strictly negative. -/
lemma countdownTick_flag (target now : Int) (s : CountdownSt) :
    (countdownTick target now s).isGameLive
      = (s.isGameLive || decide (target - now < 0)) := by
  unfold countdownTick
  by_cases h : s.isGameLive
  · simp [h]
  · by_cases h2 : target - now < 0
    · simp [h, h2]
    · simp [h, h2]

/-- The unlocked flag after a run of interval firings. -/
lemma countdownRun_flag (target : Int) (nows : List Int) (s : CountdownSt) :
    (countdownRun target nows s).isGameLive
      = (s.isGameLive || nows.any (fun n => decide (target - n < 0))) := by
  induction nows generalizing s with
  | nil => simp [countdownRun]
  | cons n rest ih =>
    show (countdownRun target rest (countdownTick target n s)).isGameLive = _
    rw [ih, countdownTick_flag]
    simp [Bool.or_assoc]

/-!
## Claim theorems
-/

/-- Claim C1 (code bug): the spec lists the Step enum members as
{HOME, START, NAME, CAROUSEL, LIGHT_1, LIGHT_2, LIGHT_3, LIGHT_4, END}
and says every assigned step value is a member.  The component indeed
assigns exactly that set of values, but the enum declared in
src/types.ts contains CARD_BACK and not LIGHT_4, so the assigned value
LIGHT_4 is not a member of the declared enum: the declaration
contradicts the code that uses it. -/
theorem C1_enumMemberMismatch :
    "LIGHT_4" ∈ assignedStepValues
    ∧ "LIGHT_4" ∉ appStepDeclaredMembers
    ∧ "CARD_BACK" ∈ appStepDeclaredMembers
    ∧ "CARD_BACK" ∉ assignedStepValues
    ∧ claimedStepMembers = assignedStepValues
    ∧ appStepDeclaredMembers ≠ claimedStepMembers := by
  decide

/-- Claim C2 counterexample: re-closing already-solved card 1 with
solved=true appends a duplicate (solvedCards becomes [1, 1], so the set
is not duplicate-free and the count changes), and because the length
now equals the total card count 2 the LIGHT_1 transition is scheduled
even though card 2 was never solved. -/
theorem C2_counterexample :
    (closeCard 2 true c2DupState).solvedCards = [1, 1]
    ∧ (closeCard 2 true c2DupState).solvedCards ≠ c2DupState.solvedCards
    ∧ (closeCard 2 true c2DupState).lightScheduled = true := by
  decide

/-- Claim C2 (amended): `closeCard(true)` with a truthy active card id
appends that id to solvedCards unconditionally - there is no duplicate
check - and schedules the LIGHT_1 transition exactly when the resulting
length equals the total card count, counting duplicates. -/
theorem C2_closeCardAppends (total : Nat) (s : CardSt) (i : Int)
    (hA : s.isAnimating = false) (hid : s.activeCardId = some i) (hnz : i ≠ 0) :
    (closeCard total true s).solvedCards = s.solvedCards ++ [i]
    ∧ (closeCard total true s).lightScheduled
        = (s.lightScheduled || ((s.solvedCards.length + 1 : Nat) == total)) := by
  have hi : (i != 0) = true := by simpa using hnz
  simp [closeCard, hA, hid, truthyId, hi, List.length_append]

/-- Witness for C2_closeCardAppends at a concrete state. -/
theorem C2_witness :
    (closeCard 2 true c2WitnessState).solvedCards = [5, 7]
    ∧ (closeCard 2 true c2WitnessState).lightScheduled = true := by
  have h := C2_closeCardAppends 2 c2WitnessState 7 rfl rfl (by decide)
  exact ⟨h.1, by simpa using h.2⟩

/-- Claim C3 (code bug): the light auto-advance effect (part_000 lines
295-306) returns no cleanup, so the 2500 ms LIGHT_1 timeout armed on
entering LIGHT_1 survives a reset of the step to HOME, and firing it
still executes `setStep(AppStep.LIGHT_2)`: the stale timer does cause a
transition, while the claim (and the countdown effect in the same file,
which does return a cleanup) requires that it must not. -/
theorem C3_staleTimerFires :
    (setStepAndEffect Step.HOME
        (setStepAndEffect Step.LIGHT_1 { step := Step.CAROUSEL, timers := [] })).step
      = Step.HOME
    ∧ (setStepAndEffect Step.HOME
        (setStepAndEffect Step.LIGHT_1 { step := Step.CAROUSEL, timers := [] })).timers
      = [(2500, Step.LIGHT_2)]
    ∧ (fireFirstTimer (setStepAndEffect Step.HOME
        (setStepAndEffect Step.LIGHT_1 { step := Step.CAROUSEL, timers := [] }))).step
      = Step.LIGHT_2 := by
  decide

/-- Claim C4 counterexample: with 6 cards, a single next() press moves
windowStart from 0 to 3, which leaves the claimed interval
[0, max(0, totalCards - windowSize)] = [0, 2]. -/
theorem C4_counterexample :
    carouselRun 6 [CarouselOp.nextOp] = 3
    ∧ ¬ carouselRun 6 [CarouselOp.nextOp] ≤ max 0 (6 - 4) := by
  decide

/-- Claim C4 (amended): for every total card count and every sequence
of prev/next presses from windowStart = 0, windowStart stays within
[0, max(0, totalCards - 2)] (the page step is 3 while the window size
is 4, so windowStart can exceed totalCards - windowSize by up to 2);
next() is a no-op exactly when windowStart + windowSize >= totalCards,
and prev() is a no-op exactly when windowStart = 0. -/
theorem C4_windowInvariant (total : Int) (ops : List CarouselOp) :
    0 ≤ carouselRun total ops
    ∧ carouselRun total ops ≤ max 0 (total - 2)
    ∧ (handleNext total (carouselRun total ops) = carouselRun total ops
        ↔ total ≤ carouselRun total ops + visibleCount)
    ∧ (handlePrev (carouselRun total ops) = carouselRun total ops
        ↔ carouselRun total ops = 0) := by
  obtain ⟨h0, h3, hub⟩ :=
    carousel_inv total ops 0 (le_refl 0) (by decide) (Or.inl (le_refl 0))
  refine ⟨h0, ?_, handleNext_fixed_iff total _, handlePrev_fixed_iff _ h0⟩
  rcases hub with hcase | hcase
  · exact le_max_of_le_left hcase
  · exact le_max_of_le_right hcase

/-- Claim C5 counterexample: a click-open of card 2 while card 1 is
already active (and the lock is clear) is not a no-op - the thumbnail
guard only checks that the clicked card is not itself the active card
or solved, and `openCard` only checks the animation lock - so the state
changes and the active card becomes card 2. -/
theorem C5_counterexample :
    (cardClick true 2 c5ActiveState).activeCardId = some 2
    ∧ cardClick true 2 c5ActiveState ≠ c5ActiveState := by
  decide

/-- Claim C5 (amended): an open call is a no-op while animationLocked,
when the clicked card is itself the active card, or when it is already
solved; and two open calls in rapid succession (the second arriving
before the lock clears) leave exactly one active card, namely the
first, because the first call sets the lock synchronously.  A click on
a different unsolved card while another card is active and the lock is
clear is however not blocked by these guards (see the counterexample);
the code relies on the fullscreen overlay to absorb such clicks. -/
theorem C5_openGuards (b : Bool) (id id2 : Int) (s : CardSt) :
    (s.isAnimating = true → cardClick b id s = s ∧ openCard id s = s)
    ∧ (s.solvedCards.contains id = true → cardClick b id s = s)
    ∧ (s.activeCardId = some id → cardClick b id s = s)
    ∧ (s.isAnimating = false → s.activeCardId = none →
        s.solvedCards.contains id = false →
        cardClick true id2 (cardClick true id s) = cardClick true id s
        ∧ (cardClick true id s).activeCardId = some id) := by
  refine ⟨?_, ?_, ?_, ?_⟩
  · intro hA
    exact ⟨cardClick_noop_locked b id s hA, openCard_locked id s hA⟩
  · intro hs
    unfold cardClick
    rw [if_neg (fun hcon => by rw [hs] at hcon; simp at hcon)]
  · intro ha
    unfold cardClick
    rw [if_neg (fun hcon => by rw [ha] at hcon; simp at hcon)]
  · intro hA ha hs
    have h1 : cardClick true id s = openCard id s := by
      unfold cardClick
      rw [if_pos (by rw [ha, hs]; rfl)]
    have h2 : openCard id s
        = { s with isAnimating := true, activeCardId := some id, inputCardAnswer := [] } := by
      unfold openCard
      rw [if_neg (by simp [hA])]
    constructor
    · rw [h1]
      exact cardClick_noop_locked true id2 (openCard id s) (by rw [h2])
    · rw [h1, h2]

/-- Witness for C5_openGuards: a second rapid open is dropped and one
card stays active; an open while locked is dropped. -/
theorem C5_witness :
    cardClick true 2 (cardClick true 1 c5FreshState) = cardClick true 1 c5FreshState
    ∧ (cardClick true 1 c5FreshState).activeCardId = some 1
    ∧ cardClick true 9 c5LockedState = c5LockedState := by
  have h4 := (C5_openGuards true 1 2 c5FreshState).2.2.2 rfl rfl rfl
  have h1 := (C5_openGuards true 9 0 c5LockedState).1 rfl
  exact ⟨h4.1, h4.2, h1.1⟩

/-- Claim C6 counterexample: answers rejected at t=0 and t=300 (the
second while the pulse is active); at t=600, which is within 500 ms of
the most recent rejection, the pulse is already inactive because the
clear scheduled by the first rejection fired at t=500 and was never
cancelled. -/
theorem C6_counterexample :
    (firePulseClears 600 (handleError 300 (handleError 0 { shake := false, clears := [] }))).shake
      = false
    ∧ 600 < 300 + 500 := by
  decide

/-- Claim C6 (amended): every rejection activates the pulse and
schedules a clear 500 ms later, but an earlier pending clear is not
cancelled; for two rejections r1 ≤ r2 with r2 arriving while the first
pulse window is still open, the pulse observed at time t is active
exactly until 500 ms after the FIRST rejection, not the most recent. -/
theorem C6_pulseClearsAfterFirst (r1 r2 t : Nat)
    (h12 : r1 ≤ r2) (hover : r2 < r1 + 500) (_ht : r2 ≤ t) :
    (firePulseClears t (handleError r2 (handleError r1 { shake := false, clears := [] }))).shake
      = decide (t < r1 + 500) := by
  simp only [handleError, firePulseClears, List.nil_append, List.cons_append,
    List.any_cons, List.any_nil, Bool.or_false]
  by_cases h1 : r1 + 500 ≤ t
  · rw [if_pos (by simp [h1])]
    simp
    omega
  · have h2 : ¬ r2 + 500 ≤ t := by omega
    rw [if_neg (by simp [h1, h2])]
    simp
    omega

/-- Witness for C6_pulseClearsAfterFirst: rejections at 0 and 300,
observed at 400 - still within 500 ms of the first rejection, so the
pulse is active. -/
theorem C6_witness :
    (firePulseClears 400 (handleError 300 (handleError 0 { shake := false, clears := [] }))).shake
      = true := by
  have h := C6_pulseClearsAfterFirst 0 300 400 (by decide) (by decide) (by decide)
  simpa using h

/-- Claim C7: the answer check normalizes its candidate by trimming
leading/trailing JS whitespace and lowercasing (internal characters
preserved), hashes the normalized UTF-8 bytes and renders them as
lowercase hex, and compares for exact equality with the digest; hence
two candidates that differ only in leading/trailing whitespace or in
letter case produce the same result for every digest and every digest
function, and every emitted digest string over byte values is lowercase
hex. -/
theorem C7_normalizationInvariance
    (sha256 : List Nat → List Nat) (d : List Char)
    (s1 s2 p1 c1 q1 p2 c2 q2 : List Char)
    (h1 : s1 = p1 ++ c1 ++ q1) (h2 : s2 = p2 ++ c2 ++ q2)
    (hp1 : p1.all isJsWs = true) (hq1 : q1.all isJsWs = true)
    (hp2 : p2.all isJsWs = true) (hq2 : q2.all isJsWs = true)
    (hc1 : jsTrim c1 = c1) (hc2 : jsTrim c2 = c2)
    (hcase : c1.map jsToLower = c2.map jsToLower) :
    answerMatches sha256 s1 d = answerMatches sha256 s2 d
    ∧ ∀ bytes : List Nat, (∀ b ∈ bytes, b < 256) →
        (toHexLower bytes).all isLowerHexDigit = true := by
  constructor
  · subst h1 h2
    unfold answerMatches
    rw [cleanInput_sandwich p1 c1 q1 hp1 hq1 hc1,
        cleanInput_sandwich p2 c2 q2 hp2 hq2 hc2, hcase]
  · intro bytes hb
    induction bytes with
    | nil => rfl
    | cons b rest ih =>
      have hblt : b < 256 := hb b (List.mem_cons_self b rest)
      have hrest := ih (fun x hx => hb x (List.mem_cons_of_mem b hx))
      simp only [toHexLower, List.flatMap_cons, byteToHexLower, List.all_append,
        List.all_cons, List.all_nil, Bool.and_true, Bool.and_eq_true]
      refine ⟨⟨hexDigitChar_isLowerHex (b / 16) (by omega), hexDigitChar_isLowerHex (b % 16) (by omega)⟩, ?_⟩
      simpa [toHexLower] using hrest

/-- Witness for C7_normalizationInvariance: a padded mixed-case
candidate and its unpadded case-variant give the same check result. -/
theorem C7_witness :
    answerMatches (fun bs => bs) [' ', 'A', 'b', 'C'] c7Digest
      = answerMatches (fun bs => bs) ['a', 'B', 'c', ' '] c7Digest := by
  have h := C7_normalizationInvariance (fun bs => bs) c7Digest
    [' ', 'A', 'b', 'C'] ['a', 'B', 'c', ' ']
    [' '] ['A', 'b', 'C'] [] [] ['a', 'B', 'c'] [' ']
    rfl rfl (by decide) (by decide) (by decide) (by decide)
    (by decide) (by decide) (by decide)
  exact h.1

/-- Claim C8 counterexample: a tick at exactly the target time has
remaining = 0 ≤ 0, but the interval callback only unlocks on the
strict comparison `diff < 0`, so `isGameLive` stays false. -/
theorem C8_counterexample :
    (countdownTick 1000 1000 { isGameLive := false, timeLeft := "" }).isGameLive = false
    ∧ (1000 : Int) - 1000 ≤ 0 := by
  constructor
  · rfl
  · decide

/-- Claim C8 (amended): at construction the unlocked flag reflects the
current time (true iff test mode or targetTime ≤ now); afterwards a
tick at time n unlocks exactly when targetTime - n < 0 strictly (a
tick at remaining exactly 0 does not unlock); the flag is a monotonic
latch - the run formula shows it stays true once any earlier evaluation
set it. -/
theorem C8_unlockLatch (testMode : Bool) (target now0 : Int) (nows : List Int) :
    (countdownRun target nows
        { isGameLive := isGameLiveInit testMode target now0, timeLeft := "" }).isGameLive
      = (testMode || decide (target ≤ now0) || nows.any (fun n => decide (target - n < 0))) := by
  rw [countdownRun_flag]
  rfl

/-- Claim C9: submitting an empty or whitespace-only name is silently
ignored (no transition, no state change); submitting a name with
non-empty trim commits the trimmed name synchronously - before the
1000 ms fade timeout fires, while the step is still unchanged - sets
the fade flag, and the step becomes CAROUSEL when the timeout fires. -/
theorem C9_nameSubmit (inputName : List Char) (s : NameSt) :
    (inputName.all isJsWs = true → handleNameSubmit inputName s = s)
    ∧ (jsTrim inputName ≠ [] →
        (handleNameSubmit inputName s).name = jsTrim inputName
        ∧ (handleNameSubmit inputName s).step = s.step
        ∧ (handleNameSubmit inputName s).isTransitioning = true
        ∧ (fireNameFade (handleNameSubmit inputName s)).step = Step.CAROUSEL
        ∧ (fireNameFade (handleNameSubmit inputName s)).isTransitioning = false) := by
  constructor
  · intro h
    unfold handleNameSubmit
    rw [jsTrim_eq_nil_of_all inputName h]
    rfl
  · intro h
    have hne : (jsTrim inputName == ([] : List Char)) = false := by
      simpa using h
    have hsubmit : handleNameSubmit inputName s
        = { s with name := jsTrim inputName, isTransitioning := true, fadePending := true } := by
      unfold handleNameSubmit
      rw [if_neg (by simp [hne])]
    rw [hsubmit]
    refine ⟨rfl, rfl, rfl, ?_, ?_⟩
    · unfold fireNameFade
      rw [if_pos rfl]
    · unfold fireNameFade
      rw [if_pos rfl]

/-- Witness for C9_nameSubmit: a whitespace-only submission changes
nothing; submitting a real name reaches CAROUSEL after the fade. -/
theorem C9_witness :
    handleNameSubmit [' ', ' '] c9State = c9State
    ∧ (handleNameSubmit ['A', 'l', 'e', 'x'] c9State).name = ['A', 'l', 'e', 'x']
    ∧ (fireNameFade (handleNameSubmit ['A', 'l', 'e', 'x'] c9State)).step = Step.CAROUSEL := by
  have hws := (C9_nameSubmit [' ', ' '] c9State).1 (by decide)
  have hgo := (C9_nameSubmit ['A', 'l', 'e', 'x'] c9State).2 (by decide)
  exact ⟨hws, hgo.1, hgo.2.2.2.1⟩

/-- Claim C10: the close-commit in `closeCard` is guarded by the JS
truthiness of the captured active card id (`if (solved && activeCardId)`),
so for a card with id 0 a solved close never records the id and never
schedules the LIGHT_1 transition, while for every card with a nonzero
id the commit proceeds. -/
theorem C10_zeroIdNeverCommits (total : Nat) (s : CardSt)
    (hA : s.isAnimating = false) :
    (s.activeCardId = some 0 →
      (closeCard total true s).solvedCards = s.solvedCards
      ∧ (closeCard total true s).lightScheduled = s.lightScheduled)
    ∧ (∀ i : Int, i ≠ 0 → s.activeCardId = some i →
        (closeCard total true s).solvedCards = s.solvedCards ++ [i]) := by
  constructor
  · intro hid
    unfold closeCard
    rw [if_neg (by simp [hA]), hid]
    exact ⟨rfl, by simp [truthyId]⟩
  · intro i hnz hid
    have hi : (i != 0) = true := by simpa using hnz
    simp [closeCard, hA, hid, truthyId, hi]

/-- Witness for C10_zeroIdNeverCommits: closing solved with card id 0
active records nothing and schedules nothing, while with card id 4 the
commit appends the id. -/
theorem C10_witness :
    (closeCard 1 true c10ZeroState).solvedCards = [3]
    ∧ (closeCard 1 true c10ZeroState).lightScheduled = false
    ∧ (closeCard 1 true c10NonzeroState).solvedCards = [3, 4] := by
  have hz := (C10_zeroIdNeverCommits 1 c10ZeroState rfl).1 rfl
  have hn := (C10_zeroIdNeverCommits 1 c10NonzeroState rfl).2 4 (by decide) rfl
  exact ⟨hz.1, hz.2, hn⟩

end TicketApp
